import Mathlib

/-!
Shallow embedding of the pod synchronization engine
(`pkg/controller/dgraph/models/pod.go` of keshav1007/purser).

Conventions of the embedding:
* Go's `float64` quantities (counts, metric and storage values) are modelled
  as rationals `ℚ`; the claims under study concern which values are summed or
  attached, not floating-point rounding.
* Timestamps are modelled as opaque strings; `time.Time.Format` is the
  identity on the already-formatted string, and the zero deletion timestamp
  is `Option.none`.
* External collaborators (the per-kind create-or-get resolvers, the container
  synchronizer, label construction, and store-side mutation failures) are
  oracle functions collected in `Env`; every theorem quantifies over them.
* The dgraph store itself (`dgraph.GetUID` / `dgraph.MutateNode`) is not part
  of the source tree under verification, so it is modelled from the spec as a
  `Store` state: an association list from internal id to pod entity, plus a
  fresh-id counter, a mutation log, and a log of container-termination
  cascade invocations.
* Go errors are `Except String`; a Go runtime panic (index out of range) is
  `RunResult.crash` / `Option.none`.
-/

set_option autoImplicit false

/-- `dgraph.ID`: external id (`xid`) plus store-assigned internal id (`uid`);
Go zero values are empty strings. -/
structure ID where
  uid : String
  xid : String
  deriving DecidableEq

/-- Modelled from the spec: a Container child entity; only its identity is
relevant to the pod handler (the container model file is outside the sources
under verification). -/
structure Container where
  id : ID
  deriving DecidableEq

/-- A pod appearing as an interaction destination inside another pod's `Pods`
list.  In Go this is a `*Pod`, but the pod handler only ever sets the `ID`
and the edge weight `Count` on such nested pods, so the embedding uses this
flat record (Lean structures cannot be recursive). -/
structure PodRel where
  id : ID
  count : ℚ
  deriving DecidableEq

/-- Modelled from the spec: the Node relation target; only its identity is
set by the pod handler. -/
structure Node where
  id : ID
  deriving DecidableEq

/-- Modelled from the spec: the Namespace relation target. -/
structure Namespace where
  id : ID
  deriving DecidableEq

/-- Modelled from the spec: the Deployment relation target. -/
structure Deployment where
  id : ID
  deriving DecidableEq

/-- Modelled from the spec: the ReplicaSet relation target. -/
structure Replicaset where
  id : ID
  deriving DecidableEq

/-- Modelled from the spec: the StatefulSet relation target. -/
structure Statefulset where
  id : ID
  deriving DecidableEq

/-- Modelled from the spec: the DaemonSet relation target. -/
structure Daemonset where
  id : ID
  deriving DecidableEq

/-- Modelled from the spec: the Job relation target. -/
structure Job where
  id : ID
  deriving DecidableEq

/-- Modelled from the spec: a volume-claim entity; the pod handler reads its
storage capacity and attaches its identity. -/
structure PersistentVolumeClaim where
  id : ID
  storageCapacity : ℚ
  deriving DecidableEq

/-- Modelled from the spec: a label entity as returned by the external
`GetLabel` collaborator. -/
structure Label where
  key : String
  value : String
  deriving DecidableEq

/-- Modelled from the spec: a service entity (the `Cid` field's element type);
never constructed by the pod handler. -/
structure Service where
  id : ID
  deriving DecidableEq

/-- `Metrics` as in pod.go (float64 fields modelled as ℚ). -/
structure Metrics where
  cpuRequest : ℚ
  cpuLimit : ℚ
  memoryRequest : ℚ
  memoryLimit : ℚ
  deriving DecidableEq

/-- The `Pod` dgraph model of pod.go.  Field names follow the Go struct
(lowercased; `nspace` stands for the Go field `Namespace`, since `namespace`
is a Lean keyword).  Go `nil` pointers / empty slices / zero numbers are
`none` / `[]` / `0`. -/
structure Pod where
  id : ID
  isPod : Bool
  name : String
  startTime : String
  endTime : String
  containers : List Container
  pods : List PodRel
  count : ℚ
  node : Option Node
  nspace : Option Namespace
  deployment : Option Deployment
  replicaset : Option Replicaset
  statefulset : Option Statefulset
  daemonset : Option Daemonset
  job : Option Job
  pvcs : List PersistentVolumeClaim
  cpuRequest : ℚ
  cpuLimit : ℚ
  memoryRequest : ℚ
  memoryLimit : ℚ
  storageRequest : ℚ
  type : String
  cid : List Service
  labels : List Label
  deriving DecidableEq

/-- The Go zero value `Pod{}`. -/
def Pod.empty : Pod :=
  { id := ⟨"", ""⟩, isPod := false, name := "", startTime := "", endTime := ""
    containers := [], pods := [], count := 0, node := none, nspace := none
    deployment := none, replicaset := none, statefulset := none
    daemonset := none, job := none, pvcs := [], cpuRequest := 0, cpuLimit := 0
    memoryRequest := 0, memoryLimit := 0, storageRequest := 0, type := ""
    cid := [], labels := [] }

/-- A Kubernetes owner reference (kind and name are all the handler reads). -/
structure OwnerReference where
  kind : String
  name : String
  deriving DecidableEq

/-- A Kubernetes volume: the handler only reads the optional persistent
volume claim name (`vol.PersistentVolumeClaim.ClaimName`; `none` models a
nil `PersistentVolumeClaim` pointer). -/
structure K8sVolume where
  persistentVolumeClaim : Option String
  deriving DecidableEq

/-- The observed Kubernetes pod object (`api_v1.Pod`), restricted to the
fields the handler reads.  `nspace` is the object's namespace;
`deletionTimestamp = none` models a zero deletion timestamp;
`ownerReferences = none` models a nil owner-reference slice. -/
structure K8sPod where
  name : String
  nspace : String
  nodeName : String
  creationTimestamp : String
  deletionTimestamp : Option String
  labels : List (String × String)
  ownerReferences : Option (List OwnerReference)
  volumes : List K8sVolume
  deriving DecidableEq

/-- `dgraph.CREATE` / `dgraph.UPDATE`. -/
inductive Mode where
  | CREATE
  | UPDATE
  deriving DecidableEq

/-- The external collaborators consumed by pod.go, as oracle functions.
`mutateResult` is the store-side failure oracle: `some e` means the store
rejects that mutation with error `e`. -/
structure Env where
  createOrGetNodeByID : String → Except String String
  CreateOrGetNamespaceByID : String → String
  CreateOrGetDeploymentByID : String → String
  CreateOrGetReplicasetByID : String → String
  CreateOrGetStatefulsetByID : String → String
  CreateOrGetJobByID : String → String
  CreateOrGetDaemonsetByID : String → String
  CreateOrGetPersistentVolumeClaimByID : String → String
  getPVCFromUID : String → Except String PersistentVolumeClaim
  StoreAndRetrieveContainersAndMetrics : K8sPod → String → String → List Container × Metrics
  GetLabel : String → String → Label
  mutateResult : Pod → Mode → Option String

/-- `api.Assigned`: the id-assignment result of a mutation; `uids` is the
blank-node-name → assigned-uid map. -/
structure Assigned where
  uids : List (String × String)
  deriving DecidableEq

/-- Lookup in a string map, with Go's missing-key default `""`. -/
def lookupStr : List (String × String) → String → String
  | [], _ => ""
  | e :: rest, k => if e.1 = k then e.2 else lookupStr rest k

/-- `assigned.Uids[key]` with Go's zero-value default. -/
def Assigned.lookup (a : Assigned) (k : String) : String :=
  lookupStr a.uids k

/-- Modelled from the spec: the persistent graph store visible to the pod
handler.  `pods` maps internal id to the persisted pod entity; `counter`
feeds fresh internal ids; `mutations` logs every store mutation attempt;
`cascades` logs every container-termination cascade invocation (container
list passed, end timestamp). -/
structure Store where
  pods : List (String × Pod)
  counter : Nat
  mutations : List (Pod × Mode)
  cascades : List (List Container × String)

/-- Modelled from the spec: fresh internal ids assigned by the store. -/
def freshUID (n : Nat) : String :=
  "0x" ++ toString (n + 1)

/-- The `IsPod` kind-discriminator constant of pod.go. -/
def IsPod : String :=
  "isPod"

/-- First persisted entry whose entity carries the given external id and the
pod discriminator. -/
def findPodEntry : List (String × Pod) → String → Option (String × Pod)
  | [], _ => none
  | e :: rest, xid =>
    if e.2.id.xid = xid ∧ e.2.isPod = true then some e else findPodEntry rest xid

/-- Internal id of the first matching entry, `""` when absent. -/
def findPodUID (l : List (String × Pod)) (xid : String) : String :=
  match findPodEntry l xid with
  | some e => e.1
  | none => ""

/-- First entity stored under the given internal id. -/
def lookupPod : List (String × Pod) → String → Option Pod
  | [], _ => none
  | e :: rest, k => if e.1 = k then some e.2 else lookupPod rest k

/-- Modelled from the spec: `dgraph.GetUID(id, nodeType)` — identity
resolution by external id and kind discriminator, `""` when absent.  The
modelled store only holds pod entities, so only the pod discriminator can
resolve. -/
def GetUID (xid nodeType : String) (st : Store) : String :=
  if nodeType = IsPod then findPodUID st.pods xid else ""

/-- Merge of one string field under an update mutation: a zero-valued
(`omitempty`) field leaves the stored value unchanged. -/
def mergeString (old new : String) : String :=
  if new = "" then old else new

/-- Merge of one numeric field under an update mutation. -/
def mergeQ (old new : ℚ) : ℚ :=
  if new = 0 then old else new

/-- Merge of one optional relation field under an update mutation. -/
def mergeOpt {α : Type} (old new : Option α) : Option α :=
  match new with
  | none => old
  | some x => some x

/-- Merge of one list field under an update mutation: an omitted (empty)
list leaves the stored value, a present list replaces it wholesale. -/
def mergeList {α : Type} (old new : List α) : List α :=
  if new.isEmpty then old else new

/-- Merge of the bool discriminator field: `false` is the omitted zero
value. -/
def mergeBool (old new : Bool) : Bool :=
  old || new

/-- Merge of the interaction-edge list: per destination, a later write
replaces the weight (last-write-wins); untouched destinations persist. -/
def mergeEdges (old new : List PodRel) : List PodRel :=
  if new.isEmpty then old
  else new ++ old.filter (fun e => !(new.any (fun n => n.id.uid == e.id.uid)))

/-- Merge of the id pair. -/
def mergeID (old new : ID) : ID :=
  ⟨mergeString old.uid new.uid, mergeString old.xid new.xid⟩

/-- Modelled from the spec: the effect of an update mutation on a stored
entity — fields omitted from the update (zero-valued, `omitempty`) keep
their stored value, present fields are written. -/
def mergePod (old new : Pod) : Pod :=
  { id := mergeID old.id new.id
    isPod := mergeBool old.isPod new.isPod
    name := mergeString old.name new.name
    startTime := mergeString old.startTime new.startTime
    endTime := mergeString old.endTime new.endTime
    containers := mergeList old.containers new.containers
    pods := mergeEdges old.pods new.pods
    count := mergeQ old.count new.count
    node := mergeOpt old.node new.node
    nspace := mergeOpt old.nspace new.nspace
    deployment := mergeOpt old.deployment new.deployment
    replicaset := mergeOpt old.replicaset new.replicaset
    statefulset := mergeOpt old.statefulset new.statefulset
    daemonset := mergeOpt old.daemonset new.daemonset
    job := mergeOpt old.job new.job
    pvcs := mergeList old.pvcs new.pvcs
    cpuRequest := mergeQ old.cpuRequest new.cpuRequest
    cpuLimit := mergeQ old.cpuLimit new.cpuLimit
    memoryRequest := mergeQ old.memoryRequest new.memoryRequest
    memoryLimit := mergeQ old.memoryLimit new.memoryLimit
    storageRequest := mergeQ old.storageRequest new.storageRequest
    type := mergeString old.type new.type
    cid := mergeList old.cid new.cid
    labels := mergeList old.labels new.labels }

/-- Modelled from the spec: applying an update mutation keyed by internal id
to the persisted entities — the first entry with that id is merged in place;
an unknown id is upserted. -/
def updatePods : List (String × Pod) → String → Pod → List (String × Pod)
  | [], uid, p => [(uid, p)]
  | e :: rest, uid, p =>
    if e.1 = uid then (e.1, mergePod e.2 p) :: rest
    else e :: updatePods rest uid p

/-- Modelled from the spec: `dgraph.MutateNode(entity, mode)`.  A CREATE
introduces exactly one new node under a fresh internal id and reports it
under the fixed first-blank-node key; an UPDATE merges into the entity named
by the mutation's internal id.  Store-side failures come from the
`mutateResult` oracle and leave the entities untouched.  Every attempt is
logged. -/
def MutateNode (env : Env) (pod : Pod) (mode : Mode) (st : Store) :
    Except String Assigned × Store :=
  let st1 : Store := { st with mutations := (pod, mode) :: st.mutations }
  match env.mutateResult pod mode with
  | some e => (Except.error e, st1)
  | none =>
    match mode with
    | Mode.CREATE =>
      let uid := freshUID st1.counter
      (Except.ok ⟨[("blank-0", uid)]⟩,
       { st1 with
         counter := st1.counter + 1
         pods := (uid, { pod with id := ⟨uid, pod.id.xid⟩ }) :: st1.pods })
    | Mode.UPDATE =>
      (Except.ok ⟨[]⟩, { st1 with pods := updatePods st1.pods pod.id.uid pod })

/-- Modelled from the spec: the container-termination cascade
(`deleteContainersInTerminatedPod`) is a best-effort side operation whose
outcome does not affect the main mutation; the embedding records the
container list and timestamp it is invoked with. -/
def deleteContainersInTerminatedPod (containers : List Container) (ts : String)
    (st : Store) : Store :=
  { st with cascades := (containers, ts) :: st.cascades }

/-- Loop body of `getPodVolumes`: walk the pod's volumes, attach each
resolvable claim, and accumulate the storage capacities that could be
read. -/
def getPodVolumesGo (env : Env) (nspace : String) :
    List K8sVolume → List PersistentVolumeClaim × ℚ
  | [] => ([], 0)
  | vol :: rest =>
    let r := getPodVolumesGo env nspace rest
    match vol.persistentVolumeClaim with
    | none => r
    | some claimName =>
      let pvcXID := nspace ++ ":" ++ claimName
      let pvcUID := env.CreateOrGetPersistentVolumeClaimByID pvcXID
      if pvcUID = "" then r
      else
        match env.getPVCFromUID pvcUID with
        | Except.ok pvc => (⟨⟨pvcUID, pvcXID⟩, 0⟩ :: r.1, pvc.storageCapacity + r.2)
        | Except.error _ => (⟨⟨pvcUID, pvcXID⟩, 0⟩ :: r.1, r.2)

/-- `getPodVolumes` of pod.go. -/
def getPodVolumes (env : Env) (k8sPod : K8sPod) :
    List PersistentVolumeClaim × ℚ :=
  getPodVolumesGo env k8sPod.nspace k8sPod.volumes

/-- One iteration of the owner loop in `setPodOwners` of pod.go. -/
def setPodOwnersStep (env : Env) (nspace : String) (pod : Pod)
    (owner : OwnerReference) : Pod :=
  if owner.kind = "Deployment" then
    let deploymentXID := nspace ++ ":" ++ owner.name
    let deploymentUID := env.CreateOrGetDeploymentByID deploymentXID
    if deploymentUID ≠ "" then
      { pod with deployment := some ⟨⟨deploymentUID, deploymentXID⟩⟩ }
    else pod
  else if owner.kind = "ReplicaSet" then
    let replicasetXID := nspace ++ ":" ++ owner.name
    let replicasetUID := env.CreateOrGetReplicasetByID replicasetXID
    if replicasetUID ≠ "" then
      { pod with replicaset := some ⟨⟨replicasetUID, replicasetXID⟩⟩ }
    else pod
  else if owner.kind = "StatefulSet" then
    let statefulsetXID := nspace ++ ":" ++ owner.name
    let statefulsetUID := env.CreateOrGetStatefulsetByID statefulsetXID
    if statefulsetUID ≠ "" then
      { pod with statefulset := some ⟨⟨statefulsetUID, statefulsetXID⟩⟩ }
    else pod
  else if owner.kind = "Job" then
    let jobXID := nspace ++ ":" ++ owner.name
    let jobUID := env.CreateOrGetJobByID jobXID
    if jobUID ≠ "" then
      { pod with job := some ⟨⟨jobUID, jobXID⟩⟩ }
    else pod
  else if owner.kind = "DaemonSet" then
    let daemonsetXID := nspace ++ ":" ++ owner.name
    let daemonsetUID := env.CreateOrGetDaemonsetByID daemonsetXID
    if daemonsetUID ≠ "" then
      { pod with daemonset := some ⟨⟨daemonsetUID, daemonsetXID⟩⟩ }
    else pod
  else
    -- log.Error("Unknown owner type ...") — logged and ignored
    pod

/-- `setPodOwners` of pod.go: a nil owner-reference slice returns at once,
otherwise each reference is processed in order. -/
def setPodOwners (env : Env) (pod : Pod) (k8sPod : K8sPod) : Pod :=
  match k8sPod.ownerReferences with
  | none => pod
  | some owners => owners.foldl (setPodOwnersStep env k8sPod.nspace) pod

/-- The pod entity assembled by `newPod` of pod.go before its CREATE
mutation.  The Go code builds it by assigning each field in sequence on a
local `pod` variable; since every assignment writes a distinct field, the
net entity is this single record, with `setPodOwners` applied last. -/
def newPodEntity (env : Env) (k8sPod : K8sPod) : Pod :=
  setPodOwners env
    { Pod.empty with
      name := "pod-" ++ k8sPod.name
      isPod := true
      type := "pod"
      id := ⟨"", k8sPod.nspace ++ ":" ++ k8sPod.name⟩
      startTime := k8sPod.creationTimestamp
      -- nodeUID, err := createOrGetNodeByID(...); if err == nil { pod.Node = ... }
      node :=
        match env.createOrGetNodeByID k8sPod.nodeName with
        | Except.ok nodeUID => some ⟨⟨nodeUID, k8sPod.nodeName⟩⟩
        | Except.error _ => none
      -- namespaceUID := CreateOrGetNamespaceByID(...); if namespaceUID != "" { ... }
      nspace :=
        if env.CreateOrGetNamespaceByID k8sPod.nspace ≠ "" then
          some ⟨⟨env.CreateOrGetNamespaceByID k8sPod.nspace, k8sPod.nspace⟩⟩
        else none
      -- pod.Pvcs, pod.StorageRequest = getPodVolumes(k8sPod)
      pvcs := (getPodVolumes env k8sPod).1
      storageRequest := (getPodVolumes env k8sPod).2 }
    k8sPod

/-- `newPod` of pod.go: build the create-phase entity and issue the CREATE
mutation. -/
def newPod (env : Env) (k8sPod : K8sPod) (st : Store) :
    Except String Assigned × Store :=
  MutateNode env (newPodEntity env k8sPod) Mode.CREATE st

/-- `populatePodLabels` of pod.go: replace the label set from the source
labels via the external `GetLabel` collaborator. -/
def populatePodLabels (env : Env) (pod : Pod)
    (podLabels : List (String × String)) : Pod :=
  { pod with labels := podLabels.map (fun kv => env.GetLabel kv.1 kv.2) }

/-- The minimal terminate-phase entity: only identity and end time. -/
def storePodTerminateEntity (xid uid ts : String) : Pod :=
  { Pod.empty with id := ⟨uid, xid⟩, endTime := ts }

/-- The update-phase entity: identity, re-synchronized containers, rolled-up
metrics, and the wholesale-replaced label set. -/
def storePodUpdateEntity (env : Env) (k8sPod : K8sPod) (xid uid : String) : Pod :=
  let namespaceUID := env.CreateOrGetNamespaceByID k8sPod.nspace
  let cm := env.StoreAndRetrieveContainersAndMetrics k8sPod uid namespaceUID
  let pod : Pod :=
    { Pod.empty with
      id := ⟨uid, xid⟩
      containers := cm.1
      cpuRequest := cm.2.cpuRequest
      cpuLimit := cm.2.cpuLimit
      memoryRequest := cm.2.memoryRequest
      memoryLimit := cm.2.memoryLimit }
  populatePodLabels env pod k8sPod.labels

/-- The tail of `StorePod` after the internal id is known: the terminate
branch (deletion marker present) or the update branch. -/
def storePodPhase2 (env : Env) (k8sPod : K8sPod) (xid uid : String)
    (st : Store) : Except String Unit × Store :=
  match k8sPod.deletionTimestamp with
  | some ts =>
    let pod := storePodTerminateEntity xid uid ts
    let st := deleteContainersInTerminatedPod pod.containers ts st
    match MutateNode env pod Mode.UPDATE st with
    | (Except.error e, st') => (Except.error e, st')
    | (Except.ok _, st') => (Except.ok (), st')
  | none =>
    match MutateNode env (storePodUpdateEntity env k8sPod xid uid) Mode.UPDATE st with
    | (Except.error e, st') => (Except.error e, st')
    | (Except.ok _, st') => (Except.ok (), st')

/-- `StorePod` of pod.go: resolve the identity, create when absent, then
terminate or update. -/
def StorePod (env : Env) (k8sPod : K8sPod) (st : Store) :
    Except String Unit × Store :=
  let xid := k8sPod.nspace ++ ":" ++ k8sPod.name
  let uid := GetUID xid IsPod st
  if uid = "" then
    match newPod env k8sPod st with
    | (Except.error e, st') => (Except.error e, st')
    | (Except.ok assigned, st') =>
      storePodPhase2 env k8sPod xid (assigned.lookup "blank-0") st'
  else
    storePodPhase2 env k8sPod xid uid st

/-- Result of a Go call that can return normally, return an error, or hit a
runtime panic. -/
inductive RunResult (α : Type) where
  | ok : α → RunResult α
  | fail : String → RunResult α
  | crash : RunResult α
  deriving DecidableEq

/-- Loop body of `retrievePodsWithCountAsEdgeWeightFromPodsXIDs`: `index`
tracks the position in the original destination list; `counts[index]` is only
evaluated for destinations that resolve, and an out-of-range index is a Go
runtime panic, modelled as `none`. -/
def retrievePodsGo (st : Store) (counts : List ℚ) :
    Nat → List String → Option (List PodRel)
  | _, [] => some []
  | index, podXID :: rest =>
    let podUID := GetUID podXID IsPod st
    if podUID = "" then retrievePodsGo st counts (index + 1) rest
    else
      match counts[index]? with
      | none => none
      | some c =>
        match retrievePodsGo st counts (index + 1) rest with
        | none => none
        | some pods => some (⟨⟨podUID, podXID⟩, c⟩ :: pods)

/-- `retrievePodsWithCountAsEdgeWeightFromPodsXIDs` of pod.go. -/
def retrievePodsWithCountAsEdgeWeightFromPodsXIDs (podsXIDs : List String)
    (counts : List ℚ) (st : Store) : Option (List PodRel) :=
  retrievePodsGo st counts 0 podsXIDs

/-- `StorePodsInteraction` of pod.go. -/
def StorePodsInteraction (env : Env) (sourcePodXID : String)
    (destinationPodsXIDs : List String) (counts : List ℚ) (st : Store) :
    RunResult Unit × Store :=
  let uid := GetUID sourcePodXID IsPod st
  if uid = "" then
    (RunResult.fail ("source pod: " ++ sourcePodXID ++ " is not persisted yet"), st)
  else
    match retrievePodsWithCountAsEdgeWeightFromPodsXIDs destinationPodsXIDs counts st with
    | none => (RunResult.crash, st)
    | some pods =>
      let source : Pod := { Pod.empty with id := ⟨uid, sourcePodXID⟩, pods := pods }
      match MutateNode env source Mode.UPDATE st with
      | (Except.error e, st') => (RunResult.fail e, st')
      | (Except.ok _, st') => (RunResult.ok (), st')

/-- Number of persisted pod entities carrying a given external id. -/
def podEntityCount (xid : String) (st : Store) : Nat :=
  (st.pods.filter (fun e => decide (e.2.id.xid = xid ∧ e.2.isPod = true))).length

/-! ## Helper lemmas about the owner loop -/

/-- One owner-loop iteration only ever writes the five owner-relation
fields. -/
theorem setPodOwnersStep_eq_update (env : Env) (ns : String) (pod : Pod)
    (o : OwnerReference) :
    ∃ D R S A J, setPodOwnersStep env ns pod o =
      { pod with deployment := D, replicaset := R, statefulset := S,
                 daemonset := A, job := J } := by
  unfold setPodOwnersStep
  dsimp only
  split_ifs <;> exact ⟨_, _, _, _, _, rfl⟩

/-- The whole owner loop only ever writes the five owner-relation fields. -/
theorem setPodOwners_foldl_eq_update (env : Env) (ns : String) :
    ∀ (l : List OwnerReference) (pod : Pod),
    ∃ D R S A J, l.foldl (setPodOwnersStep env ns) pod =
      { pod with deployment := D, replicaset := R, statefulset := S,
                 daemonset := A, job := J } := by
  intro l
  induction l with
  | nil => exact fun pod => ⟨pod.deployment, pod.replicaset, pod.statefulset,
      pod.daemonset, pod.job, rfl⟩
  | cons o rest ih =>
    intro pod
    obtain ⟨D1, R1, S1, A1, J1, h1⟩ := setPodOwnersStep_eq_update env ns pod o
    obtain ⟨D2, R2, S2, A2, J2, h2⟩ :=
      ih { pod with deployment := D1, replicaset := R1, statefulset := S1,
                    daemonset := A1, job := J1 }
    exact ⟨D2, R2, S2, A2, J2, by simp only [List.foldl_cons, h1, h2]⟩

/-- `setPodOwners` only ever writes the five owner-relation fields. -/
theorem setPodOwners_eq_update (env : Env) (pod : Pod) (k8s : K8sPod) :
    ∃ D R S A J, setPodOwners env pod k8s =
      { pod with deployment := D, replicaset := R, statefulset := S,
                 daemonset := A, job := J } := by
  unfold setPodOwners
  cases k8s.ownerReferences with
  | none => exact ⟨pod.deployment, pod.replicaset, pod.statefulset,
      pod.daemonset, pod.job, rfl⟩
  | some owners => exact setPodOwners_foldl_eq_update env k8s.nspace owners pod

/-- Projection of `setPodOwners` at the id field. -/
theorem setPodOwners_id (env : Env) (pod : Pod) (k8s : K8sPod) :
    (setPodOwners env pod k8s).id = pod.id := by
  obtain ⟨D, R, S, A, J, h⟩ := setPodOwners_eq_update env pod k8s
  rw [h]

/-- Projection of `setPodOwners` at the discriminator field. -/
theorem setPodOwners_isPod (env : Env) (pod : Pod) (k8s : K8sPod) :
    (setPodOwners env pod k8s).isPod = pod.isPod := by
  obtain ⟨D, R, S, A, J, h⟩ := setPodOwners_eq_update env pod k8s
  rw [h]

/-- Projection of `setPodOwners` at the node relation. -/
theorem setPodOwners_node (env : Env) (pod : Pod) (k8s : K8sPod) :
    (setPodOwners env pod k8s).node = pod.node := by
  obtain ⟨D, R, S, A, J, h⟩ := setPodOwners_eq_update env pod k8s
  rw [h]

/-- Projection of `setPodOwners` at the namespace relation. -/
theorem setPodOwners_nspace (env : Env) (pod : Pod) (k8s : K8sPod) :
    (setPodOwners env pod k8s).nspace = pod.nspace := by
  obtain ⟨D, R, S, A, J, h⟩ := setPodOwners_eq_update env pod k8s
  rw [h]

/-- Projection of `setPodOwners` at the volume-claim relation list. -/
theorem setPodOwners_pvcs (env : Env) (pod : Pod) (k8s : K8sPod) :
    (setPodOwners env pod k8s).pvcs = pod.pvcs := by
  obtain ⟨D, R, S, A, J, h⟩ := setPodOwners_eq_update env pod k8s
  rw [h]

/-- Projection of `setPodOwners` at the aggregate storage request. -/
theorem setPodOwners_storageRequest (env : Env) (pod : Pod) (k8s : K8sPod) :
    (setPodOwners env pod k8s).storageRequest = pod.storageRequest := by
  obtain ⟨D, R, S, A, J, h⟩ := setPodOwners_eq_update env pod k8s
  rw [h]

/-! ## Helper lemmas about `newPodEntity` -/

theorem newPodEntity_storageRequest (env : Env) (k8s : K8sPod) :
    (newPodEntity env k8s).storageRequest = (getPodVolumes env k8s).2 := by
  unfold newPodEntity
  rw [setPodOwners_storageRequest]

theorem newPodEntity_pvcs (env : Env) (k8s : K8sPod) :
    (newPodEntity env k8s).pvcs = (getPodVolumes env k8s).1 := by
  unfold newPodEntity
  rw [setPodOwners_pvcs]

theorem newPodEntity_id (env : Env) (k8s : K8sPod) :
    (newPodEntity env k8s).id = ⟨"", k8s.nspace ++ ":" ++ k8s.name⟩ := by
  unfold newPodEntity
  rw [setPodOwners_id]

theorem newPodEntity_isPod (env : Env) (k8s : K8sPod) :
    (newPodEntity env k8s).isPod = true := by
  unfold newPodEntity
  rw [setPodOwners_isPod]

theorem newPodEntity_node_error (env : Env) (k8s : K8sPod) (err : String)
    (h : env.createOrGetNodeByID k8s.nodeName = Except.error err) :
    (newPodEntity env k8s).node = none := by
  unfold newPodEntity
  rw [setPodOwners_node]
  simp only [h]

theorem newPodEntity_nspace_empty (env : Env) (k8s : K8sPod)
    (h : env.CreateOrGetNamespaceByID k8s.nspace = "") :
    (newPodEntity env k8s).nspace = none := by
  unfold newPodEntity
  rw [setPodOwners_nspace]
  simp [h]

/-! ## Helper lemma about the volume loop -/

theorem getPodVolumesGo_spec (env : Env) (ns : String) :
    ∀ vols : List K8sVolume,
    getPodVolumesGo env ns vols =
      (vols.filterMap (fun vol =>
          match vol.persistentVolumeClaim with
          | none => none
          | some claimName =>
            let pvcXID := ns ++ ":" ++ claimName
            let pvcUID := env.CreateOrGetPersistentVolumeClaimByID pvcXID
            if pvcUID = "" then none
            else some ⟨⟨pvcUID, pvcXID⟩, 0⟩),
       (vols.map (fun vol =>
          match vol.persistentVolumeClaim with
          | none => 0
          | some claimName =>
            let pvcUID := env.CreateOrGetPersistentVolumeClaimByID (ns ++ ":" ++ claimName)
            if pvcUID = "" then 0
            else
              match env.getPVCFromUID pvcUID with
              | Except.ok pvc => pvc.storageCapacity
              | Except.error _ => 0)).sum) := by
  intro vols
  induction vols with
  | nil => simp [getPodVolumesGo]
  | cons vol rest ih =>
    simp only [getPodVolumesGo, ih, List.filterMap_cons, List.map_cons,
      List.sum_cons]
    cases vol.persistentVolumeClaim with
    | none => simp
    | some claimName =>
      by_cases h : env.CreateOrGetPersistentVolumeClaimByID (ns ++ ":" ++ claimName) = ""
      · simp [h]
      · cases hp : env.getPVCFromUID (env.CreateOrGetPersistentVolumeClaimByID (ns ++ ":" ++ claimName)) with
        | ok pvc => simp [h, hp]
        | error e => simp [h, hp]

/-! ## C6 and C10: volume resolution -/

/-- C6: the create-phase aggregate storage request equals the sum of the
storage capacities of the volume claims that resolved successfully
(create-or-get returned a non-empty id and the capacity lookup succeeded);
an unresolvable claim contributes nothing to the sum, and volume resolution
never causes the create-phase build `newPod` to fail — `newPod` succeeds
whenever the CREATE mutation itself does. -/
theorem newPod_storage_is_sum_of_resolved (env : Env) (k8s : K8sPod) :
    (getPodVolumes env k8s).2 =
      (k8s.volumes.map (fun vol =>
        match vol.persistentVolumeClaim with
        | none => 0
        | some claimName =>
          let pvcUID :=
            env.CreateOrGetPersistentVolumeClaimByID (k8s.nspace ++ ":" ++ claimName)
          if pvcUID = "" then 0
          else
            match env.getPVCFromUID pvcUID with
            | Except.ok pvc => pvc.storageCapacity
            | Except.error _ => 0)).sum ∧
    (newPodEntity env k8s).storageRequest = (getPodVolumes env k8s).2 ∧
    (∀ st : Store, env.mutateResult (newPodEntity env k8s) Mode.CREATE = none →
      ∃ a, (newPod env k8s st).1 = Except.ok a) := by
  refine ⟨?_, newPodEntity_storageRequest env k8s, ?_⟩
  · have h := getPodVolumesGo_spec env k8s.nspace k8s.volumes
    unfold getPodVolumes
    rw [h]
  · intro st hmut
    exact ⟨⟨[("blank-0", freshUID st.counter)]⟩, by simp [newPod, MutateNode, hmut]⟩

/-- Witness for C6, mirroring the spec's example: two volume claims with
storage capacities 10 and 20, the second unresolvable, yield aggregate
storage request 10, and the create succeeds. -/
theorem newPod_storage_is_sum_of_resolved_witness :
    (getPodVolumes
      { createOrGetNodeByID := fun _ => Except.ok "0xn"
        CreateOrGetNamespaceByID := fun _ => "0xns"
        CreateOrGetDeploymentByID := fun _ => ""
        CreateOrGetReplicasetByID := fun _ => ""
        CreateOrGetStatefulsetByID := fun _ => ""
        CreateOrGetJobByID := fun _ => ""
        CreateOrGetDaemonsetByID := fun _ => ""
        CreateOrGetPersistentVolumeClaimByID := fun x =>
          if x = "ns:claim1" then "0xpvc1" else ""
        getPVCFromUID := fun u =>
          if u = "0xpvc1" then Except.ok ⟨⟨"0xpvc1", "ns:claim1"⟩, 10⟩
          else Except.ok ⟨⟨"", ""⟩, 20⟩
        StoreAndRetrieveContainersAndMetrics := fun _ _ _ => ([], ⟨0, 0, 0, 0⟩)
        GetLabel := fun k v => ⟨k, v⟩
        mutateResult := fun _ _ => none }
      { name := "p", nspace := "ns", nodeName := "n", creationTimestamp := "t"
        deletionTimestamp := none, labels := [], ownerReferences := none
        volumes := [⟨some "claim1"⟩, ⟨some "claim2"⟩] }).2 = 10 ∧
    ∃ a, (newPod
      { createOrGetNodeByID := fun _ => Except.ok "0xn"
        CreateOrGetNamespaceByID := fun _ => "0xns"
        CreateOrGetDeploymentByID := fun _ => ""
        CreateOrGetReplicasetByID := fun _ => ""
        CreateOrGetStatefulsetByID := fun _ => ""
        CreateOrGetJobByID := fun _ => ""
        CreateOrGetDaemonsetByID := fun _ => ""
        CreateOrGetPersistentVolumeClaimByID := fun x =>
          if x = "ns:claim1" then "0xpvc1" else ""
        getPVCFromUID := fun u =>
          if u = "0xpvc1" then Except.ok ⟨⟨"0xpvc1", "ns:claim1"⟩, 10⟩
          else Except.ok ⟨⟨"", ""⟩, 20⟩
        StoreAndRetrieveContainersAndMetrics := fun _ _ _ => ([], ⟨0, 0, 0, 0⟩)
        GetLabel := fun k v => ⟨k, v⟩
        mutateResult := fun _ _ => none }
      { name := "p", nspace := "ns", nodeName := "n", creationTimestamp := "t"
        deletionTimestamp := none, labels := [], ownerReferences := none
        volumes := [⟨some "claim1"⟩, ⟨some "claim2"⟩] }
      ⟨[], 0, [], []⟩).1 = Except.ok a := by
  constructor
  · simp [getPodVolumes, getPodVolumesGo]
  · exact (newPod_storage_is_sum_of_resolved _ _).2.2 ⟨[], 0, [], []⟩ rfl

/-- C10: a volume claim whose create-or-get returns a non-empty id is
attached as a PVC relation irrespective of the outcome of the subsequent
capacity lookup (the relation list does not depend on `getPVCFromUID`), a
failed capacity lookup contributes zero to the aggregate, and only a claim
resolving to the empty id (or a volume with no claim) is omitted from the
relation list. -/
theorem getPodVolumes_attaches_resolved_claims (env : Env) (k8s : K8sPod) :
    (getPodVolumes env k8s).1 =
      k8s.volumes.filterMap (fun vol =>
        match vol.persistentVolumeClaim with
        | none => none
        | some claimName =>
          let pvcXID := k8s.nspace ++ ":" ++ claimName
          let pvcUID := env.CreateOrGetPersistentVolumeClaimByID pvcXID
          if pvcUID = "" then none
          else some ⟨⟨pvcUID, pvcXID⟩, 0⟩) ∧
    (getPodVolumes env k8s).2 =
      (k8s.volumes.map (fun vol =>
        match vol.persistentVolumeClaim with
        | none => 0
        | some claimName =>
          let pvcUID :=
            env.CreateOrGetPersistentVolumeClaimByID (k8s.nspace ++ ":" ++ claimName)
          if pvcUID = "" then 0
          else
            match env.getPVCFromUID pvcUID with
            | Except.ok pvc => pvc.storageCapacity
            | Except.error _ => 0)).sum ∧
    (newPodEntity env k8s).pvcs = (getPodVolumes env k8s).1 := by
  have h := getPodVolumesGo_spec env k8s.nspace k8s.volumes
  refine ⟨?_, ?_, newPodEntity_pvcs env k8s⟩ <;> unfold getPodVolumes <;> rw [h]

/-! ## C9: newPod fails only on the CREATE mutation -/

/-- C9: `newPod` returns an error exactly when the CREATE mutation itself
fails (for every behaviour of the resolver collaborators); a failing node
resolution or an empty namespace id merely omits the corresponding relation
from the built entity. -/
theorem newPod_error_only_from_mutation (env : Env) (k8s : K8sPod) (st : Store) :
    (∀ e, (newPod env k8s st).1 = Except.error e ↔
      env.mutateResult (newPodEntity env k8s) Mode.CREATE = some e) ∧
    (∀ err, env.createOrGetNodeByID k8s.nodeName = Except.error err →
      (newPodEntity env k8s).node = none) ∧
    (env.CreateOrGetNamespaceByID k8s.nspace = "" →
      (newPodEntity env k8s).nspace = none) := by
  refine ⟨?_, newPodEntity_node_error env k8s, newPodEntity_nspace_empty env k8s⟩
  intro e
  unfold newPod MutateNode
  cases h : env.mutateResult (newPodEntity env k8s) Mode.CREATE <;> simp [h]

/-- Witness for C9: with a failing node resolver, an absent namespace and a
store rejecting the mutation with "boom", `newPod` surfaces exactly "boom"
and the built entity has no node and no namespace relation. -/
theorem newPod_error_only_from_mutation_witness :
    (newPod
      { createOrGetNodeByID := fun _ => Except.error "no node"
        CreateOrGetNamespaceByID := fun _ => ""
        CreateOrGetDeploymentByID := fun _ => ""
        CreateOrGetReplicasetByID := fun _ => ""
        CreateOrGetStatefulsetByID := fun _ => ""
        CreateOrGetJobByID := fun _ => ""
        CreateOrGetDaemonsetByID := fun _ => ""
        CreateOrGetPersistentVolumeClaimByID := fun _ => ""
        getPVCFromUID := fun _ => Except.error "no pvc"
        StoreAndRetrieveContainersAndMetrics := fun _ _ _ => ([], ⟨0, 0, 0, 0⟩)
        GetLabel := fun k v => ⟨k, v⟩
        mutateResult := fun _ _ => some "boom" }
      { name := "p", nspace := "ns", nodeName := "n", creationTimestamp := "t"
        deletionTimestamp := none, labels := [], ownerReferences := none
        volumes := [] }
      ⟨[], 0, [], []⟩).1 = Except.error "boom" ∧
    (newPodEntity
      { createOrGetNodeByID := fun _ => Except.error "no node"
        CreateOrGetNamespaceByID := fun _ => ""
        CreateOrGetDeploymentByID := fun _ => ""
        CreateOrGetReplicasetByID := fun _ => ""
        CreateOrGetStatefulsetByID := fun _ => ""
        CreateOrGetJobByID := fun _ => ""
        CreateOrGetDaemonsetByID := fun _ => ""
        CreateOrGetPersistentVolumeClaimByID := fun _ => ""
        getPVCFromUID := fun _ => Except.error "no pvc"
        StoreAndRetrieveContainersAndMetrics := fun _ _ _ => ([], ⟨0, 0, 0, 0⟩)
        GetLabel := fun k v => ⟨k, v⟩
        mutateResult := fun _ _ => some "boom" }
      { name := "p", nspace := "ns", nodeName := "n", creationTimestamp := "t"
        deletionTimestamp := none, labels := [], ownerReferences := none
        volumes := [] }).node = none ∧
    (newPodEntity
      { createOrGetNodeByID := fun _ => Except.error "no node"
        CreateOrGetNamespaceByID := fun _ => ""
        CreateOrGetDeploymentByID := fun _ => ""
        CreateOrGetReplicasetByID := fun _ => ""
        CreateOrGetStatefulsetByID := fun _ => ""
        CreateOrGetJobByID := fun _ => ""
        CreateOrGetDaemonsetByID := fun _ => ""
        CreateOrGetPersistentVolumeClaimByID := fun _ => ""
        getPVCFromUID := fun _ => Except.error "no pvc"
        StoreAndRetrieveContainersAndMetrics := fun _ _ _ => ([], ⟨0, 0, 0, 0⟩)
        GetLabel := fun k v => ⟨k, v⟩
        mutateResult := fun _ _ => some "boom" }
      { name := "p", nspace := "ns", nodeName := "n", creationTimestamp := "t"
        deletionTimestamp := none, labels := [], ownerReferences := none
        volumes := [] }).nspace = none :=
  ⟨((newPod_error_only_from_mutation _ _ _).1 "boom").mpr rfl,
   (newPod_error_only_from_mutation _ _ ⟨[], 0, [], []⟩).2.1 "no node" rfl,
   (newPod_error_only_from_mutation _ _ ⟨[], 0, [], []⟩).2.2 rfl⟩

/-! ## C3: absent interaction source fails fast -/

/-- C3: when the source external id of `StorePodsInteraction` resolves to
absent, the call returns the "not persisted yet" error at once and the store
state is entirely unchanged — no mutation is issued and the source entity is
never created. -/
theorem storePodsInteraction_source_absent (env : Env) (st : Store)
    (src : String) (dests : List String) (counts : List ℚ)
    (h : GetUID src IsPod st = "") :
    StorePodsInteraction env src dests counts st =
      (RunResult.fail ("source pod: " ++ src ++ " is not persisted yet"), st) := by
  unfold StorePodsInteraction
  rw [h]
  simp

/-- Witness for C3: an empty store resolves no source. -/
theorem storePodsInteraction_source_absent_witness :
    StorePodsInteraction
      { createOrGetNodeByID := fun _ => Except.ok "0xn"
        CreateOrGetNamespaceByID := fun _ => "0xns"
        CreateOrGetDeploymentByID := fun _ => ""
        CreateOrGetReplicasetByID := fun _ => ""
        CreateOrGetStatefulsetByID := fun _ => ""
        CreateOrGetJobByID := fun _ => ""
        CreateOrGetDaemonsetByID := fun _ => ""
        CreateOrGetPersistentVolumeClaimByID := fun _ => ""
        getPVCFromUID := fun _ => Except.error "no pvc"
        StoreAndRetrieveContainersAndMetrics := fun _ _ _ => ([], ⟨0, 0, 0, 0⟩)
        GetLabel := fun k v => ⟨k, v⟩
        mutateResult := fun _ _ => none }
      "ns:p1" ["ns:p2"] [5] ⟨[], 0, [], []⟩ =
      (RunResult.fail "source pod: ns:p1 is not persisted yet", ⟨[], 0, [], []⟩) :=
  storePodsInteraction_source_absent _ _ _ _ _ rfl

/-! ## C8: the terminate cascade always receives an empty container list -/

/-- `MutateNode` never touches the cascade log. -/
theorem MutateNode_cascades (env : Env) (p : Pod) (m : Mode) (st : Store) :
    (MutateNode env p m st).2.cascades = st.cascades := by
  unfold MutateNode
  cases h : env.mutateResult p m <;> cases m <;> simp [h]

/-- The cascade log effect of the terminate branch of `storePodPhase2`. -/
theorem storePodPhase2_cascades (env : Env) (k8s : K8sPod) (xid uid : String)
    (st : Store) (ts : String) (hdel : k8s.deletionTimestamp = some ts) :
    (storePodPhase2 env k8s xid uid st).2.cascades = ([], ts) :: st.cascades := by
  unfold storePodPhase2
  rw [hdel]
  dsimp only
  split
  next e st' heq =>
    have hc := congrArg (fun p => p.2.cascades) heq
    simp only [MutateNode_cascades] at hc
    simp only [deleteContainersInTerminatedPod] at hc
    rw [← hc]
    simp [storePodTerminateEntity, Pod.empty]
  next a st' heq =>
    have hc := congrArg (fun p => p.2.cascades) heq
    simp only [MutateNode_cascades] at hc
    simp only [deleteContainersInTerminatedPod] at hc
    rw [← hc]
    simp [storePodTerminateEntity, Pod.empty]

/-- C8: on a terminate-phase `StorePod` call for an already persisted pod,
the container list handed to the child-termination cascade is the empty
list, whatever containers the persisted pod actually has: the terminate
entity is built with only its id and end time before the cascade runs. -/
theorem storePod_terminate_cascade_empty (env : Env) (k8s : K8sPod)
    (st : Store) (ts : String)
    (hdel : k8s.deletionTimestamp = some ts)
    (huid : GetUID (k8s.nspace ++ ":" ++ k8s.name) IsPod st ≠ "") :
    (StorePod env k8s st).2.cascades = ([], ts) :: st.cascades := by
  unfold StorePod
  rw [if_neg huid]
  exact storePodPhase2_cascades env k8s _ _ st ts hdel

/-! ## Helper lemmas about the interaction retrieve loop -/

/-- With enough counts for the remaining destinations, the retrieve loop
returns exactly the resolving destinations zipped with their counts. -/
theorem retrievePodsGo_spec (st : Store) (counts : List ℚ) :
    ∀ (xs : List String) (index : Nat), index + xs.length ≤ counts.length →
    retrievePodsGo st counts index xs =
      some ((xs.zip (counts.drop index)).filterMap (fun p =>
        if GetUID p.1 IsPod st = "" then none
        else some ⟨⟨GetUID p.1 IsPod st, p.1⟩, p.2⟩)) := by
  intro xs
  induction xs with
  | nil => intro index h; simp [retrievePodsGo]
  | cons x rest ih =>
    intro index h
    have hidx : index < counts.length := by
      simp only [List.length_cons] at h
      omega
    have hdrop := List.drop_eq_getElem_cons hidx
    have hsome : counts[index]? = some counts[index] :=
      List.getElem?_eq_getElem hidx
    have hrec := ih (index + 1) (by simp only [List.length_cons] at h; omega)
    have hzip : (x :: rest).zip (counts.drop index) =
        (x, counts[index]) :: rest.zip (counts.drop (index + 1)) := by
      rw [hdrop]
      rfl
    rw [hzip]
    simp only [retrievePodsGo]
    rw [hrec]
    by_cases hg : GetUID x IsPod st = ""
    · simp [hg]
    · simp [hg, hsome]

/-- The retrieve loop never reads counts beyond the destinations still to be
processed: surplus counts are invisible. -/
theorem retrievePodsGo_take (st : Store) (counts : List ℚ) (n : Nat) :
    ∀ (xs : List String) (index : Nat), index + xs.length ≤ n →
    retrievePodsGo st (counts.take n) index xs =
      retrievePodsGo st counts index xs := by
  intro xs
  induction xs with
  | nil => intro index h; simp [retrievePodsGo]
  | cons x rest ih =>
    intro index h
    have hidx : index < n := by
      simp only [List.length_cons] at h
      omega
    have htake : (counts.take n)[index]? = counts[index]? := by
      simp [List.getElem?_take, hidx]
    have hrec := ih (index + 1) (by simp only [List.length_cons] at h; omega)
    by_cases hg : GetUID x IsPod st = ""
    · simp [retrievePodsGo, hg, hrec]
    · simp only [retrievePodsGo, hg, if_neg hg, htake, hrec]

/-- A resolving destination whose absolute index falls outside the counts
list makes the retrieve loop hit the out-of-range read. -/
theorem retrievePodsGo_crash_of_unindexed (st : Store) (counts : List ℚ) :
    ∀ (xs : List String) (index : Nat) (k : Nat) (hk : k < xs.length),
    GetUID (xs.get ⟨k, hk⟩) IsPod st ≠ "" → counts.length ≤ index + k →
    retrievePodsGo st counts index xs = none := by
  intro xs
  induction xs with
  | nil => intro index k hk; exact absurd hk (by simp)
  | cons x rest ih =>
    intro index k hk hres hout
    cases k with
    | zero =>
      simp only [List.get] at hres
      have hnone : counts[index]? = none := List.getElem?_eq_none (by omega)
      simp [retrievePodsGo, hres, hnone]
    | succ j =>
      have hj : j < rest.length := by
        simp only [List.length_cons] at hk
        omega
      have hres' : GetUID (rest.get ⟨j, hj⟩) IsPod st ≠ "" := by
        simpa using hres
      have hrec := ih (index + 1) j hj hres' (by omega)
      by_cases hg : GetUID x IsPod st = ""
      · simp [retrievePodsGo, hg, hrec]
      · cases hsome : counts[index]? with
        | none => simp [retrievePodsGo, hg, hsome]
        | some c => simp [retrievePodsGo, hg, hsome, hrec]

/-- When every resolving destination has its count in range, the retrieve
loop completes. -/
theorem retrievePodsGo_some_of_indexed (st : Store) (counts : List ℚ) :
    ∀ (xs : List String) (index : Nat),
    (∀ (k : Nat) (hk : k < xs.length),
      GetUID (xs.get ⟨k, hk⟩) IsPod st ≠ "" → index + k < counts.length) →
    retrievePodsGo st counts index xs ≠ none := by
  intro xs
  induction xs with
  | nil => intro index _; simp [retrievePodsGo]
  | cons x rest ih =>
    intro index hin
    have hrec := ih (index + 1) (fun k hk hres => by
      have := hin (k + 1) (by simp only [List.length_cons]; omega) (by simpa using hres)
      omega)
    by_cases hg : GetUID x IsPod st = ""
    · simpa [retrievePodsGo, hg] using hrec
    · have hidx : index < counts.length := by
        have := hin 0 (by simp) (by simpa using hg)
        omega
      have hsome : counts[index]? = some counts[index] :=
        List.getElem?_eq_getElem hidx
      cases hr : retrievePodsGo st counts (index + 1) rest with
      | none => exact absurd hr hrec
      | some l => simp [retrievePodsGo, hg, hsome, hr]

/-- Once the destination list is retrieved, `StorePodsInteraction` cannot
crash, and it succeeds whenever its UPDATE mutation does. -/
theorem storePodsInteraction_of_retrieved (env : Env) (src : String)
    (dests : List String) (counts : List ℚ) (st : Store) (l : List PodRel)
    (hsrc : GetUID src IsPod st ≠ "")
    (hret : retrievePodsWithCountAsEdgeWeightFromPodsXIDs dests counts st = some l) :
    (StorePodsInteraction env src dests counts st).1 ≠ RunResult.crash ∧
    (env.mutateResult
        { Pod.empty with id := ⟨GetUID src IsPod st, src⟩, pods := l }
        Mode.UPDATE = none →
      (StorePodsInteraction env src dests counts st).1 = RunResult.ok ()) := by
  unfold StorePodsInteraction
  rw [if_neg hsrc, hret]
  dsimp only
  constructor
  · split
    next e st' heq => simp
    next a st' heq => simp
  · intro hm
    unfold MutateNode
    rw [hm]

/-! ## Concrete fixtures used by witnesses and counterexamples -/

/-- A collaborator environment whose resolvers answer and whose store never
rejects a mutation. -/
def envResolved : Env :=
  { createOrGetNodeByID := fun _ => Except.ok "0xn"
    CreateOrGetNamespaceByID := fun _ => "0xns"
    CreateOrGetDeploymentByID := fun _ => "0xd"
    CreateOrGetReplicasetByID := fun _ => "0xr"
    CreateOrGetStatefulsetByID := fun _ => "0xs"
    CreateOrGetJobByID := fun _ => "0xj"
    CreateOrGetDaemonsetByID := fun _ => "0xa"
    CreateOrGetPersistentVolumeClaimByID := fun _ => "0xp"
    getPVCFromUID := fun _ => Except.ok ⟨⟨"", ""⟩, 0⟩
    StoreAndRetrieveContainersAndMetrics := fun _ _ _ => ([], ⟨0, 0, 0, 0⟩)
    GetLabel := fun k v => ⟨k, v⟩
    mutateResult := fun _ _ => none }

/-- A persisted pod `ns:p1`. -/
def podP1 : Pod :=
  { Pod.empty with id := ⟨"0x1", "ns:p1"⟩, isPod := true, name := "pod-p1" }

/-- A persisted pod `ns:p2`, with one container child. -/
def podP2 : Pod :=
  { Pod.empty with id := ⟨"0x2", "ns:p2"⟩, isPod := true, name := "pod-p2"
                   containers := [⟨⟨"0xc", "ns:p2:c"⟩⟩] }

/-- A store holding `ns:p1` and `ns:p2` (and nothing else). -/
def stTwo : Store :=
  ⟨[("0x1", podP1), ("0x2", podP2)], 2, [], []⟩

/-- Witness for C8: terminating the persisted pod `ns:p2` — which has a
container child — still passes the empty container list to the cascade. -/
theorem storePod_terminate_cascade_empty_witness :
    (StorePod envResolved
      { name := "p2", nspace := "ns", nodeName := "n", creationTimestamp := "t"
        deletionTimestamp := some "tEnd", labels := [], ownerReferences := none
        volumes := [] }
      stTwo).2.cascades = ([], "tEnd") :: stTwo.cascades :=
  storePod_terminate_cascade_empty envResolved _ stTwo "tEnd" rfl (by decide)

/-! ## C4: interaction recording with partial destinations -/

/-- C4: with a resolvable source and equal-length lists, the retrieved
destination list is exactly the resolving destinations, each weighted by the
count at its own index; unresolved destinations are skipped; the call never
crashes, and it succeeds whenever the single UPDATE mutation does —
unresolved destinations never produce an error. -/
theorem storePodsInteraction_partial_destinations (env : Env) (st : Store)
    (src : String) (dests : List String) (counts : List ℚ)
    (hsrc : GetUID src IsPod st ≠ "") (hlen : dests.length = counts.length) :
    retrievePodsWithCountAsEdgeWeightFromPodsXIDs dests counts st =
      some ((dests.zip counts).filterMap (fun p =>
        if GetUID p.1 IsPod st = "" then none
        else some ⟨⟨GetUID p.1 IsPod st, p.1⟩, p.2⟩)) ∧
    (StorePodsInteraction env src dests counts st).1 ≠ RunResult.crash ∧
    (env.mutateResult
        { Pod.empty with
          id := ⟨GetUID src IsPod st, src⟩
          pods := (dests.zip counts).filterMap (fun p =>
            if GetUID p.1 IsPod st = "" then none
            else some ⟨⟨GetUID p.1 IsPod st, p.1⟩, p.2⟩) }
        Mode.UPDATE = none →
      (StorePodsInteraction env src dests counts st).1 = RunResult.ok ()) := by
  have hr : retrievePodsWithCountAsEdgeWeightFromPodsXIDs dests counts st =
      some ((dests.zip counts).filterMap (fun p =>
        if GetUID p.1 IsPod st = "" then none
        else some ⟨⟨GetUID p.1 IsPod st, p.1⟩, p.2⟩)) := by
    unfold retrievePodsWithCountAsEdgeWeightFromPodsXIDs
    have h := retrievePodsGo_spec st counts dests 0 (by omega)
    rwa [List.drop_zero] at h
  obtain ⟨h1, h2⟩ :=
    storePodsInteraction_of_retrieved env src dests counts st _ hsrc hr
  exact ⟨hr, h1, h2⟩

/-- Witness for C4, mirroring the spec's example: destinations p2 (resolved)
and p3 (unresolved) with counts 5 and 10 yield exactly one weighted edge to
p2 and a successful call. -/
theorem storePodsInteraction_partial_destinations_witness :
    retrievePodsWithCountAsEdgeWeightFromPodsXIDs ["ns:p2", "ns:p3"] [5, 10] stTwo =
      some [⟨⟨"0x2", "ns:p2"⟩, 5⟩] ∧
    (StorePodsInteraction envResolved "ns:p1" ["ns:p2", "ns:p3"] [5, 10] stTwo).1 =
      RunResult.ok () := by
  have h := storePodsInteraction_partial_destinations envResolved stTwo
    "ns:p1" ["ns:p2", "ns:p3"] [5, 10] (by decide) (by decide)
  refine ⟨?_, h.2.2 rfl⟩
  rw [h.1]
  rfl

/-! ## C2: no length validation in StorePodsInteraction -/

/-- C2 counterexample: with one destination and two counts — mismatched
lengths — and a resolvable source, the call does not fail with a validation
error: it returns success, silently ignoring the surplus count. -/
theorem storePodsInteraction_mismatch_not_rejected :
    (["ns:p2"] : List String).length ≠ ([5, 10] : List ℚ).length ∧
    (StorePodsInteraction envResolved "ns:p1" ["ns:p2"] [5, 10] stTwo).1 =
      RunResult.ok () := by
  constructor
  · decide
  · rfl

/-- C2 as amended: `StorePodsInteraction` performs no length validation.
Surplus counts are invisible (the call behaves exactly as with the counts
list truncated to the destination count), a resolving destination whose
index falls outside the counts list crashes the call with an out-of-range
read instead of a validation error, and when every resolving destination
has its count in range the mismatched call proceeds without any crash. -/
theorem storePodsInteraction_no_length_validation (env : Env) (st : Store)
    (src : String) (dests : List String) (counts : List ℚ)
    (hsrc : GetUID src IsPod st ≠ "") :
    StorePodsInteraction env src dests counts st =
      StorePodsInteraction env src dests (counts.take dests.length) st ∧
    ((∃ k, ∃ hk : k < dests.length,
        GetUID (dests.get ⟨k, hk⟩) IsPod st ≠ "" ∧ counts.length ≤ k) →
      (StorePodsInteraction env src dests counts st).1 = RunResult.crash) ∧
    ((∀ (k : Nat) (hk : k < dests.length),
        GetUID (dests.get ⟨k, hk⟩) IsPod st ≠ "" → k < counts.length) →
      (StorePodsInteraction env src dests counts st).1 ≠ RunResult.crash) := by
  refine ⟨?_, ?_, ?_⟩
  · have hre : retrievePodsWithCountAsEdgeWeightFromPodsXIDs dests
        (counts.take dests.length) st =
        retrievePodsWithCountAsEdgeWeightFromPodsXIDs dests counts st := by
      unfold retrievePodsWithCountAsEdgeWeightFromPodsXIDs
      exact retrievePodsGo_take st counts dests.length dests 0 (by omega)
    unfold StorePodsInteraction
    rw [hre]
  · rintro ⟨k, hk, hres, hout⟩
    have hnone : retrievePodsWithCountAsEdgeWeightFromPodsXIDs dests counts st = none := by
      unfold retrievePodsWithCountAsEdgeWeightFromPodsXIDs
      exact retrievePodsGo_crash_of_unindexed st counts dests 0 k hk hres (by omega)
    unfold StorePodsInteraction
    rw [if_neg hsrc, hnone]
  · intro hall
    cases hr : retrievePodsWithCountAsEdgeWeightFromPodsXIDs dests counts st with
    | none =>
      have := retrievePodsGo_some_of_indexed st counts dests 0
        (fun k hk h => by have := hall k hk h; omega)
      exact absurd hr this
    | some l =>
      exact (storePodsInteraction_of_retrieved env src dests counts st l hsrc hr).1

/-- Witness for C2 as amended: the truncation equality and the no-crash
implication at a concrete mismatched call. -/
theorem storePodsInteraction_no_length_validation_witness :
    StorePodsInteraction envResolved "ns:p1" ["ns:p2"] [5, 10] stTwo =
      StorePodsInteraction envResolved "ns:p1" ["ns:p2"]
        (List.take (["ns:p2"] : List String).length [5, 10]) stTwo ∧
    (StorePodsInteraction envResolved "ns:p1" ["ns:p2"] [5, 10] stTwo).1 ≠
      RunResult.crash := by
  have h := storePodsInteraction_no_length_validation envResolved stTwo
    "ns:p1" ["ns:p2"] [5, 10] (by decide)
  exact ⟨h.1, h.2.2 (by decide)⟩

/-! ## C5: owner resolution -/

theorem setPodOwnersStep_deployment (env : Env) (ns : String) (pod : Pod)
    (o : OwnerReference) :
    (setPodOwnersStep env ns pod o).deployment =
      if o.kind = "Deployment" ∧
          env.CreateOrGetDeploymentByID (ns ++ ":" ++ o.name) ≠ "" then
        some ⟨⟨env.CreateOrGetDeploymentByID (ns ++ ":" ++ o.name),
              ns ++ ":" ++ o.name⟩⟩
      else pod.deployment := by
  unfold setPodOwnersStep
  dsimp only
  split_ifs <;> simp_all

theorem setPodOwnersStep_replicaset (env : Env) (ns : String) (pod : Pod)
    (o : OwnerReference) :
    (setPodOwnersStep env ns pod o).replicaset =
      if o.kind = "ReplicaSet" ∧
          env.CreateOrGetReplicasetByID (ns ++ ":" ++ o.name) ≠ "" then
        some ⟨⟨env.CreateOrGetReplicasetByID (ns ++ ":" ++ o.name),
              ns ++ ":" ++ o.name⟩⟩
      else pod.replicaset := by
  unfold setPodOwnersStep
  dsimp only
  split_ifs <;> simp_all

theorem setPodOwnersStep_statefulset (env : Env) (ns : String) (pod : Pod)
    (o : OwnerReference) :
    (setPodOwnersStep env ns pod o).statefulset =
      if o.kind = "StatefulSet" ∧
          env.CreateOrGetStatefulsetByID (ns ++ ":" ++ o.name) ≠ "" then
        some ⟨⟨env.CreateOrGetStatefulsetByID (ns ++ ":" ++ o.name),
              ns ++ ":" ++ o.name⟩⟩
      else pod.statefulset := by
  unfold setPodOwnersStep
  dsimp only
  split_ifs <;> simp_all

theorem setPodOwnersStep_job (env : Env) (ns : String) (pod : Pod)
    (o : OwnerReference) :
    (setPodOwnersStep env ns pod o).job =
      if o.kind = "Job" ∧ env.CreateOrGetJobByID (ns ++ ":" ++ o.name) ≠ "" then
        some ⟨⟨env.CreateOrGetJobByID (ns ++ ":" ++ o.name), ns ++ ":" ++ o.name⟩⟩
      else pod.job := by
  unfold setPodOwnersStep
  dsimp only
  split_ifs <;> simp_all

theorem setPodOwnersStep_daemonset (env : Env) (ns : String) (pod : Pod)
    (o : OwnerReference) :
    (setPodOwnersStep env ns pod o).daemonset =
      if o.kind = "DaemonSet" ∧
          env.CreateOrGetDaemonsetByID (ns ++ ":" ++ o.name) ≠ "" then
        some ⟨⟨env.CreateOrGetDaemonsetByID (ns ++ ":" ++ o.name),
              ns ++ ":" ++ o.name⟩⟩
      else pod.daemonset := by
  unfold setPodOwnersStep
  dsimp only
  split_ifs <;> simp_all

/-- Generic last-write-wins shape of the owner loop at one owner field:
the final value of a field written exactly for references of one kind whose
resolver answers is determined by the last such reference in the list. -/
theorem foldl_owner_field {α : Type} (env : Env) (ns : String) (kind : String)
    (resolve : String → String) (g : Pod → Option α) (val : OwnerReference → α)
    (hstep : ∀ (pod : Pod) (o : OwnerReference),
      g (setPodOwnersStep env ns pod o) =
        if o.kind = kind ∧ resolve (ns ++ ":" ++ o.name) ≠ "" then some (val o)
        else g pod) :
    ∀ (l : List OwnerReference) (pod : Pod),
    g (l.foldl (setPodOwnersStep env ns) pod) =
      match l.reverse.find? (fun o =>
          decide (o.kind = kind ∧ resolve (ns ++ ":" ++ o.name) ≠ "")) with
      | some o => some (val o)
      | none => g pod := by
  intro l
  induction l with
  | nil => intro pod; simp
  | cons o rest ih =>
    intro pod
    rw [List.foldl_cons, ih (setPodOwnersStep env ns pod o), List.reverse_cons,
        List.find?_append]
    cases hfind : rest.reverse.find? (fun o =>
        decide (o.kind = kind ∧ resolve (ns ++ ":" ++ o.name) ≠ "")) with
    | some o2 => rfl
    | none =>
      rw [hstep pod o]
      by_cases hC : o.kind = kind ∧ resolve (ns ++ ":" ++ o.name) ≠ ""
      · simp [List.find?, hC, Option.or]
      · simp [List.find?, hC, Option.or]

/-- The duplicate-owner input used by the C5 counterexample: two Deployment
references, both resolving. -/
def k8sDupOwners : K8sPod :=
  { name := "p", nspace := "ns", nodeName := "n", creationTimestamp := "t"
    deletionTimestamp := none, labels := []
    ownerReferences := some [⟨"Deployment", "d1"⟩, ⟨"Deployment", "d2"⟩]
    volumes := [] }

/-- C5 counterexample: with two Deployment owner references d1 and d2, both
resolving, the per-reference attachment stated by the claim fails for d1 —
the final Deployment field holds d2's relation, not d1's. -/
theorem setPodOwners_first_of_duplicate_kind_not_attached :
    (⟨"Deployment", "d1"⟩ : OwnerReference) ∈
      k8sDupOwners.ownerReferences.getD [] ∧
    envResolved.CreateOrGetDeploymentByID ("ns" ++ ":" ++ "d1") ≠ "" ∧
    (setPodOwners envResolved Pod.empty k8sDupOwners).deployment ≠
      some ⟨⟨envResolved.CreateOrGetDeploymentByID ("ns" ++ ":" ++ "d1"),
            "ns" ++ ":" ++ "d1"⟩⟩ := by
  refine ⟨by decide, by decide, by decide⟩

/-- C5 as amended: for each of the five recognized kinds the matching owner
field of the built entity carries the relation of the last reference of that
kind whose create-or-get collaborator returned a non-empty id (so when at
most one reference per kind resolves, each resolving recognized reference is
attached exactly as the claim states); references of any other kind populate
no owner field; and no owner reference ever causes the build to fail —
`setPodOwners` is total and writes nothing but the five owner fields. -/
theorem setPodOwners_last_resolving_per_kind (env : Env) (pod : Pod)
    (k8s : K8sPod) :
    ((setPodOwners env pod k8s).deployment =
      match (k8s.ownerReferences.getD []).reverse.find? (fun o =>
          decide (o.kind = "Deployment" ∧
            env.CreateOrGetDeploymentByID (k8s.nspace ++ ":" ++ o.name) ≠ "")) with
      | some o => some ⟨⟨env.CreateOrGetDeploymentByID (k8s.nspace ++ ":" ++ o.name),
                        k8s.nspace ++ ":" ++ o.name⟩⟩
      | none => pod.deployment) ∧
    ((setPodOwners env pod k8s).replicaset =
      match (k8s.ownerReferences.getD []).reverse.find? (fun o =>
          decide (o.kind = "ReplicaSet" ∧
            env.CreateOrGetReplicasetByID (k8s.nspace ++ ":" ++ o.name) ≠ "")) with
      | some o => some ⟨⟨env.CreateOrGetReplicasetByID (k8s.nspace ++ ":" ++ o.name),
                        k8s.nspace ++ ":" ++ o.name⟩⟩
      | none => pod.replicaset) ∧
    ((setPodOwners env pod k8s).statefulset =
      match (k8s.ownerReferences.getD []).reverse.find? (fun o =>
          decide (o.kind = "StatefulSet" ∧
            env.CreateOrGetStatefulsetByID (k8s.nspace ++ ":" ++ o.name) ≠ "")) with
      | some o => some ⟨⟨env.CreateOrGetStatefulsetByID (k8s.nspace ++ ":" ++ o.name),
                        k8s.nspace ++ ":" ++ o.name⟩⟩
      | none => pod.statefulset) ∧
    ((setPodOwners env pod k8s).job =
      match (k8s.ownerReferences.getD []).reverse.find? (fun o =>
          decide (o.kind = "Job" ∧
            env.CreateOrGetJobByID (k8s.nspace ++ ":" ++ o.name) ≠ "")) with
      | some o => some ⟨⟨env.CreateOrGetJobByID (k8s.nspace ++ ":" ++ o.name),
                        k8s.nspace ++ ":" ++ o.name⟩⟩
      | none => pod.job) ∧
    ((setPodOwners env pod k8s).daemonset =
      match (k8s.ownerReferences.getD []).reverse.find? (fun o =>
          decide (o.kind = "DaemonSet" ∧
            env.CreateOrGetDaemonsetByID (k8s.nspace ++ ":" ++ o.name) ≠ "")) with
      | some o => some ⟨⟨env.CreateOrGetDaemonsetByID (k8s.nspace ++ ":" ++ o.name),
                        k8s.nspace ++ ":" ++ o.name⟩⟩
      | none => pod.daemonset) ∧
    (∃ D R S A J, setPodOwners env pod k8s =
      { pod with deployment := D, replicaset := R, statefulset := S,
                 daemonset := A, job := J }) := by
  refine ⟨?_, ?_, ?_, ?_, ?_, setPodOwners_eq_update env pod k8s⟩ <;>
    cases href : k8s.ownerReferences with
  | none => simp [setPodOwners, href]
  | some owners =>
    first
    | exact (by
        unfold setPodOwners
        rw [href]
        simpa [href] using foldl_owner_field env k8s.nspace "Deployment"
          env.CreateOrGetDeploymentByID (fun p => p.deployment)
          (fun o => ⟨⟨env.CreateOrGetDeploymentByID (k8s.nspace ++ ":" ++ o.name),
                      k8s.nspace ++ ":" ++ o.name⟩⟩)
          (fun pod o => setPodOwnersStep_deployment env k8s.nspace pod o)
          owners pod)
    | exact (by
        unfold setPodOwners
        rw [href]
        simpa [href] using foldl_owner_field env k8s.nspace "ReplicaSet"
          env.CreateOrGetReplicasetByID (fun p => p.replicaset)
          (fun o => ⟨⟨env.CreateOrGetReplicasetByID (k8s.nspace ++ ":" ++ o.name),
                      k8s.nspace ++ ":" ++ o.name⟩⟩)
          (fun pod o => setPodOwnersStep_replicaset env k8s.nspace pod o)
          owners pod)
    | exact (by
        unfold setPodOwners
        rw [href]
        simpa [href] using foldl_owner_field env k8s.nspace "StatefulSet"
          env.CreateOrGetStatefulsetByID (fun p => p.statefulset)
          (fun o => ⟨⟨env.CreateOrGetStatefulsetByID (k8s.nspace ++ ":" ++ o.name),
                      k8s.nspace ++ ":" ++ o.name⟩⟩)
          (fun pod o => setPodOwnersStep_statefulset env k8s.nspace pod o)
          owners pod)
    | exact (by
        unfold setPodOwners
        rw [href]
        simpa [href] using foldl_owner_field env k8s.nspace "Job"
          env.CreateOrGetJobByID (fun p => p.job)
          (fun o => ⟨⟨env.CreateOrGetJobByID (k8s.nspace ++ ":" ++ o.name),
                      k8s.nspace ++ ":" ++ o.name⟩⟩)
          (fun pod o => setPodOwnersStep_job env k8s.nspace pod o)
          owners pod)
    | exact (by
        unfold setPodOwners
        rw [href]
        simpa [href] using foldl_owner_field env k8s.nspace "DaemonSet"
          env.CreateOrGetDaemonsetByID (fun p => p.daemonset)
          (fun o => ⟨⟨env.CreateOrGetDaemonsetByID (k8s.nspace ++ ":" ++ o.name),
                      k8s.nspace ++ ":" ++ o.name⟩⟩)
          (fun pod o => setPodOwnersStep_daemonset env k8s.nspace pod o)
          owners pod)

/-! ## Helper lemmas about the modelled store for C7 and C1 -/

/-- A successful UPDATE mutation merges into the entity at the mutation's
internal id. -/
theorem MutateNode_ok_update (env : Env) (p : Pod) (st : Store)
    (h : env.mutateResult p Mode.UPDATE = none) :
    MutateNode env p Mode.UPDATE st =
      (Except.ok ⟨[]⟩,
       { st with mutations := (p, Mode.UPDATE) :: st.mutations
                 pods := updatePods st.pods p.id.uid p }) := by
  unfold MutateNode
  rw [h]

/-- A successful CREATE mutation persists a single new entity under the
fresh internal id and reports it under the first-blank-node key. -/
theorem MutateNode_ok_create (env : Env) (p : Pod) (st : Store)
    (h : env.mutateResult p Mode.CREATE = none) :
    MutateNode env p Mode.CREATE st =
      (Except.ok ⟨[("blank-0", freshUID st.counter)]⟩,
       { st with mutations := (p, Mode.CREATE) :: st.mutations
                 counter := st.counter + 1
                 pods := (freshUID st.counter,
                          { p with id := ⟨freshUID st.counter, p.id.xid⟩ }) :: st.pods }) := by
  unfold MutateNode
  rw [h]

/-- A found entry carries the looked-up external id and the pod
discriminator. -/
theorem findPodEntry_props :
    ∀ (l : List (String × Pod)) (xid uid : String) (p : Pod),
    findPodEntry l xid = some (uid, p) → p.id.xid = xid ∧ p.isPod = true := by
  intro l
  induction l with
  | nil => intro xid uid p h; simp [findPodEntry] at h
  | cons e rest ih =>
    intro xid uid p h
    unfold findPodEntry at h
    split_ifs at h with hc
    · obtain rfl : e = (uid, p) := by simpa using h
      exact hc
    · exact ih xid uid p h

/-- A found entry is a member of the list. -/
theorem findPodEntry_mem :
    ∀ (l : List (String × Pod)) (xid : String) (ep : String × Pod),
    findPodEntry l xid = some ep → ep ∈ l := by
  intro l
  induction l with
  | nil => intro xid ep h; simp [findPodEntry] at h
  | cons e rest ih =>
    intro xid ep h
    unfold findPodEntry at h
    split_ifs at h with hc
    · obtain rfl : e = ep := by simpa using h
      exact List.mem_cons_self e rest
    · exact List.mem_cons_of_mem e (ih xid ep h)

/-- Under distinct internal ids, the entry found by external id is also the
entry found by its internal id. -/
theorem findPodEntry_lookupPod :
    ∀ (l : List (String × Pod)), (l.map Prod.fst).Nodup →
    ∀ (xid uid : String) (p : Pod),
    findPodEntry l xid = some (uid, p) → lookupPod l uid = some p := by
  intro l
  induction l with
  | nil => intro _ xid uid p h; simp [findPodEntry] at h
  | cons e rest ih =>
    intro hnd xid uid p h
    have hnd' := hnd
    rw [List.map_cons, List.nodup_cons] at hnd'
    unfold findPodEntry at h
    split_ifs at h with hc
    · obtain rfl : e = (uid, p) := by simpa using h
      simp [lookupPod]
    · have hmem : (uid, p) ∈ rest := findPodEntry_mem rest xid (uid, p) h
      have hne : e.1 ≠ uid := by
        intro he
        exact hnd'.1 (he ▸ List.mem_map_of_mem Prod.fst hmem)
      unfold lookupPod
      rw [if_neg hne]
      exact ih hnd'.2 xid uid p h

/-- Updating an id rewrites the first entry under that id to the merged
entity, as seen by lookup. -/
theorem lookupPod_updatePods_self :
    ∀ (l : List (String × Pod)) (uid : String) (p v : Pod),
    lookupPod l uid = some v →
    lookupPod (updatePods l uid p) uid = some (mergePod v p) := by
  intro l
  induction l with
  | nil => intro uid p v h; simp [lookupPod] at h
  | cons e rest ih =>
    intro uid p v h
    unfold lookupPod at h
    unfold updatePods
    by_cases he : e.1 = uid
    · rw [if_pos he] at h
      obtain rfl : e.2 = v := by simpa using h
      rw [if_pos he]
      unfold lookupPod
      rw [if_pos he]
    · rw [if_neg he] at h
      rw [if_neg he]
      unfold lookupPod
      rw [if_neg he]
      exact ih uid p v h

/-- Updating one id leaves every other id's lookup unchanged. -/
theorem lookupPod_updatePods_other :
    ∀ (l : List (String × Pod)) (uid : String) (p : Pod) (k : String),
    k ≠ uid → lookupPod (updatePods l uid p) k = lookupPod l k := by
  intro l
  induction l with
  | nil =>
    intro uid p k hk
    unfold updatePods lookupPod
    rw [if_neg (fun he => hk he.symm)]
    rfl
  | cons e rest ih =>
    intro uid p k hk
    unfold updatePods
    by_cases he : e.1 = uid
    · rw [if_pos he]
      unfold lookupPod
      rw [if_neg (fun hek => hk ((he ▸ hek : uid = k)).symm), if_neg (he ▸ (fun hek => hk hek.symm) : ¬e.1 = k)]
    · rw [if_neg he]
      unfold lookupPod
      by_cases hek : e.1 = k
      · rw [if_pos hek, if_pos hek]
      · rw [if_neg hek, if_neg hek]
        exact ih uid p k hk

/-- Merging the minimal terminate entity into a stored pod only sets the end
time. -/
theorem mergePod_terminate (pod0 : Pod) (ts : String) (ht : ts ≠ "") :
    mergePod pod0 (storePodTerminateEntity pod0.id.xid pod0.id.uid ts) =
      { pod0 with endTime := ts } := by
  unfold mergePod storePodTerminateEntity mergeID mergeString mergeQ mergeOpt
    mergeList mergeEdges mergeBool
  simp [Pod.empty, ht]

/-! ## C7: terminate-phase frame property -/

/-- C7: a terminate-phase `StorePod` call on a persisted pod performs an
update that only sets the end timestamp (to the deletion timestamp): the
entity persisted under the pod's internal id afterwards equals the stored
entity with just `endTime` replaced — name, external id, internal id and all
other persisted fields are untouched — and every other id's entity is
unchanged. -/
theorem storePod_terminate_frame (env : Env) (k8s : K8sPod) (st : Store)
    (ts uid : String) (pod0 : Pod)
    (hdel : k8s.deletionTimestamp = some ts) (hts : ts ≠ "")
    (hfind : findPodEntry st.pods (k8s.nspace ++ ":" ++ k8s.name) = some (uid, pod0))
    (hpuid : pod0.id.uid = uid) (huid : uid ≠ "")
    (hnd : (st.pods.map Prod.fst).Nodup)
    (hmut : env.mutateResult
        (storePodTerminateEntity (k8s.nspace ++ ":" ++ k8s.name) uid ts)
        Mode.UPDATE = none) :
    (StorePod env k8s st).1 = Except.ok () ∧
    lookupPod (StorePod env k8s st).2.pods uid = some { pod0 with endTime := ts } ∧
    (∀ k, k ≠ uid → lookupPod (StorePod env k8s st).2.pods k = lookupPod st.pods k) := by
  have hx : pod0.id.xid = k8s.nspace ++ ":" ++ k8s.name :=
    (findPodEntry_props st.pods _ uid pod0 hfind).1
  have hGet : GetUID (k8s.nspace ++ ":" ++ k8s.name) IsPod st = uid := by
    unfold GetUID findPodUID
    rw [if_pos rfl, hfind]
  have hrun : StorePod env k8s st =
      storePodPhase2 env k8s (k8s.nspace ++ ":" ++ k8s.name) uid st := by
    unfold StorePod
    dsimp only
    rw [hGet, if_neg huid]
  have hterm : storePodPhase2 env k8s (k8s.nspace ++ ":" ++ k8s.name) uid st =
      (Except.ok (),
       { st with
         cascades := ([], ts) :: st.cascades
         mutations := (storePodTerminateEntity (k8s.nspace ++ ":" ++ k8s.name) uid ts,
                       Mode.UPDATE) :: st.mutations
         pods := updatePods st.pods uid
           (storePodTerminateEntity (k8s.nspace ++ ":" ++ k8s.name) uid ts) }) := by
    unfold storePodPhase2
    rw [hdel]
    dsimp only
    rw [MutateNode_ok_update _ _ _ hmut]
    simp [deleteContainersInTerminatedPod, storePodTerminateEntity, Pod.empty]
  rw [hrun, hterm]
  refine ⟨rfl, ?_, ?_⟩
  · have hlook : lookupPod st.pods uid = some pod0 :=
      findPodEntry_lookupPod st.pods hnd _ uid pod0 hfind
    dsimp only
    rw [lookupPod_updatePods_self st.pods uid _ pod0 hlook]
    rw [← hx, ← hpuid, mergePod_terminate pod0 ts hts]
  · intro k hk
    dsimp only
    exact lookupPod_updatePods_other st.pods uid _ k hk

/-- The terminate-phase input used by the C7 witness. -/
def k8sDelP2 : K8sPod :=
  { name := "p2", nspace := "ns", nodeName := "n", creationTimestamp := "t"
    deletionTimestamp := some "tEnd", labels := [], ownerReferences := none
    volumes := [] }

/-- Witness for C7: terminating the persisted `ns:p2` sets only its end
time; `ns:p1` is untouched. -/
theorem storePod_terminate_frame_witness :
    (StorePod envResolved k8sDelP2 stTwo).1 = Except.ok () ∧
    lookupPod (StorePod envResolved k8sDelP2 stTwo).2.pods "0x2" =
      some { podP2 with endTime := "tEnd" } ∧
    lookupPod (StorePod envResolved k8sDelP2 stTwo).2.pods "0x1" =
      lookupPod stTwo.pods "0x1" := by
  have h := storePod_terminate_frame envResolved k8sDelP2 stTwo "tEnd" "0x2" podP2
    rfl (by decide) (by decide) rfl (by decide) (by decide) rfl
  exact ⟨h.1, h.2.1, h.2.2 "0x1" (by decide)⟩

/-- Fresh internal ids are never the empty (absent) id. -/
theorem freshUID_ne_empty (n : Nat) : freshUID n ≠ "" := by
  intro h
  have hlen := congrArg String.length h
  simp [freshUID, String.length_append] at hlen
  exact absurd hlen.1 (by decide)

/-- If the external-id lookup answers absent and all stored internal ids are
non-empty, no stored entity matches the external id at all. -/
theorem findPodUID_empty_filter :
    ∀ (l : List (String × Pod)) (xid : String),
    findPodUID l xid = "" → (∀ e ∈ l, e.1 ≠ "") →
    l.filter (fun e => decide (e.2.id.xid = xid ∧ e.2.isPod = true)) = [] := by
  intro l
  induction l with
  | nil => intro xid _ _; rfl
  | cons e rest ih =>
    intro xid hf hk
    unfold findPodUID findPodEntry at hf
    by_cases hc : e.2.id.xid = xid ∧ e.2.isPod = true
    · rw [if_pos hc] at hf
      exact absurd hf (hk e (List.mem_cons_self e rest))
    · rw [if_neg hc] at hf
      have hrest : findPodUID rest xid = "" := hf
      rw [List.filter_cons]
      simp only [hc, decide_eq_true_eq, if_neg]
      · exact ih xid hrest (fun x hx => hk x (List.mem_cons_of_mem e hx))

/-- Merging preserves the external id when the update carries the same one. -/
theorem mergePod_id_xid (old new : Pod) (h : new.id.xid = old.id.xid) :
    (mergePod old new).id.xid = old.id.xid := by
  unfold mergePod mergeID mergeString
  simp [h]

/-- Merging preserves the pod discriminator of a stored pod entity. -/
theorem mergePod_isPod (old new : Pod) (h : old.isPod = true) :
    (mergePod old new).isPod = true := by
  unfold mergePod mergeBool
  simp [h]

/-- The update-phase entity carries exactly the identity it is keyed by. -/
theorem storePodUpdateEntity_id (env : Env) (k8s : K8sPod) (xid uid : String) :
    (storePodUpdateEntity env k8s xid uid).id = ⟨uid, xid⟩ := by
  unfold storePodUpdateEntity populatePodLabels
  rfl

/-- The update branch of `storePodPhase2` under a successful mutation. -/
theorem storePodPhase2_update_ok (env : Env) (k8s : K8sPod) (xid uid : String)
    (st : Store) (hdel : k8s.deletionTimestamp = none)
    (hmut : env.mutateResult (storePodUpdateEntity env k8s xid uid)
        Mode.UPDATE = none) :
    storePodPhase2 env k8s xid uid st =
      (Except.ok (),
       { st with
         mutations := (storePodUpdateEntity env k8s xid uid, Mode.UPDATE) :: st.mutations
         pods := updatePods st.pods uid (storePodUpdateEntity env k8s xid uid) }) := by
  unfold storePodPhase2
  rw [hdel]
  dsimp only
  rw [MutateNode_ok_update _ _ _ hmut]
  simp [storePodUpdateEntity_id]

/-- First matching entry determines `findPodUID` on a cons cell. -/
theorem findPodUID_cons_pos (e : String × Pod) (rest : List (String × Pod))
    (xid : String) (h : e.2.id.xid = xid ∧ e.2.isPod = true) :
    findPodUID (e :: rest) xid = e.1 := by
  unfold findPodUID findPodEntry
  rw [if_pos h]

/-- The create-then-update run of `StorePod` on an absent identity with an
always-accepting store. -/
theorem storePod_create_run (env : Env) (k8s : K8sPod) (st : Store)
    (hdel : k8s.deletionTimestamp = none)
    (habs : GetUID (k8s.nspace ++ ":" ++ k8s.name) IsPod st = "")
    (hok : ∀ p m, env.mutateResult p m = none) :
    StorePod env k8s st =
      (Except.ok (),
       { st with
         counter := st.counter + 1
         mutations :=
           (storePodUpdateEntity env k8s (k8s.nspace ++ ":" ++ k8s.name)
              (freshUID st.counter), Mode.UPDATE) ::
           (newPodEntity env k8s, Mode.CREATE) :: st.mutations
         pods := (freshUID st.counter,
           mergePod
             { newPodEntity env k8s with
               id := ⟨freshUID st.counter, (newPodEntity env k8s).id.xid⟩ }
             (storePodUpdateEntity env k8s (k8s.nspace ++ ":" ++ k8s.name)
                (freshUID st.counter))) :: st.pods }) := by
  unfold StorePod
  dsimp only
  rw [habs, if_pos rfl]
  unfold newPod
  rw [MutateNode_ok_create _ _ _ (hok _ _)]
  dsimp only
  simp only [Assigned.lookup, lookupStr, if_true]
  rw [storePodPhase2_update_ok env k8s _ _ _ hdel (hok _ _)]
  simp only [updatePods, if_true]

/-- The update run of `StorePod` on a resolved identity. -/
theorem storePod_update_run (env : Env) (k8s : K8sPod) (st : Store) (uid : String)
    (hdel : k8s.deletionTimestamp = none)
    (hget : GetUID (k8s.nspace ++ ":" ++ k8s.name) IsPod st = uid)
    (hne : uid ≠ "")
    (hmut : env.mutateResult
        (storePodUpdateEntity env k8s (k8s.nspace ++ ":" ++ k8s.name) uid)
        Mode.UPDATE = none) :
    StorePod env k8s st =
      (Except.ok (),
       { st with
         mutations :=
           (storePodUpdateEntity env k8s (k8s.nspace ++ ":" ++ k8s.name) uid,
            Mode.UPDATE) :: st.mutations
         pods := updatePods st.pods uid
           (storePodUpdateEntity env k8s (k8s.nspace ++ ":" ++ k8s.name) uid) }) := by
  unfold StorePod
  dsimp only
  rw [hget, if_neg hne]
  exact storePodPhase2_update_ok env k8s _ uid st hdel hmut

/-! ## C1: idempotence of StorePod -/

/-- C1: calling `StorePod` twice with the same unchanged object (no deletion
marker), starting from a store where the external id is absent (and whose
persisted internal ids are non-empty), with a store accepting all mutations:
both calls succeed, exactly one pod entity is persisted for the external id,
the identity lookup after the first call — hence the internal id used by the
second call — is exactly the id assigned by the first call's create, and the
second call creates nothing (the store's fresh-id counter is unchanged), so
it takes the update path. -/
theorem storePod_idempotent (env : Env) (k8s : K8sPod) (st : Store)
    (hdel : k8s.deletionTimestamp = none)
    (habs : GetUID (k8s.nspace ++ ":" ++ k8s.name) IsPod st = "")
    (hkeys : ∀ e ∈ st.pods, e.1 ≠ "")
    (hok : ∀ p m, env.mutateResult p m = none) :
    (StorePod env k8s st).1 = Except.ok () ∧
    (StorePod env k8s (StorePod env k8s st).2).1 = Except.ok () ∧
    GetUID (k8s.nspace ++ ":" ++ k8s.name) IsPod (StorePod env k8s st).2 =
      freshUID st.counter ∧
    GetUID (k8s.nspace ++ ":" ++ k8s.name) IsPod
      (StorePod env k8s (StorePod env k8s st).2).2 = freshUID st.counter ∧
    podEntityCount (k8s.nspace ++ ":" ++ k8s.name)
      (StorePod env k8s (StorePod env k8s st).2).2 = 1 ∧
    (StorePod env k8s (StorePod env k8s st).2).2.counter =
      (StorePod env k8s st).2.counter := by
  have hfresh : freshUID st.counter ≠ "" := freshUID_ne_empty st.counter
  have hrun1 := storePod_create_run env k8s st hdel habs hok
  have hUx : (storePodUpdateEntity env k8s (k8s.nspace ++ ":" ++ k8s.name)
      (freshUID st.counter)).id.xid = k8s.nspace ++ ":" ++ k8s.name := by
    rw [storePodUpdateEntity_id]
  have he1x : ({ newPodEntity env k8s with
      id := ⟨freshUID st.counter, (newPodEntity env k8s).id.xid⟩ } : Pod).id.xid =
      k8s.nspace ++ ":" ++ k8s.name := by
    show (newPodEntity env k8s).id.xid = _
    rw [newPodEntity_id]
  have he1p : ({ newPodEntity env k8s with
      id := ⟨freshUID st.counter, (newPodEntity env k8s).id.xid⟩ } : Pod).isPod = true := by
    show (newPodEntity env k8s).isPod = true
    exact newPodEntity_isPod env k8s
  have hm1x : (mergePod
      { newPodEntity env k8s with
        id := ⟨freshUID st.counter, (newPodEntity env k8s).id.xid⟩ }
      (storePodUpdateEntity env k8s (k8s.nspace ++ ":" ++ k8s.name)
        (freshUID st.counter))).id.xid = k8s.nspace ++ ":" ++ k8s.name := by
    rw [mergePod_id_xid _ _ (by rw [hUx, he1x])]
    exact he1x
  have hm1p : (mergePod
      { newPodEntity env k8s with
        id := ⟨freshUID st.counter, (newPodEntity env k8s).id.xid⟩ }
      (storePodUpdateEntity env k8s (k8s.nspace ++ ":" ++ k8s.name)
        (freshUID st.counter))).isPod = true :=
    mergePod_isPod _ _ he1p
  have hm2x : (mergePod (mergePod
      { newPodEntity env k8s with
        id := ⟨freshUID st.counter, (newPodEntity env k8s).id.xid⟩ }
      (storePodUpdateEntity env k8s (k8s.nspace ++ ":" ++ k8s.name)
        (freshUID st.counter)))
      (storePodUpdateEntity env k8s (k8s.nspace ++ ":" ++ k8s.name)
        (freshUID st.counter))).id.xid = k8s.nspace ++ ":" ++ k8s.name := by
    rw [mergePod_id_xid _ _ (by rw [hUx, hm1x])]
    exact hm1x
  have hm2p : (mergePod (mergePod
      { newPodEntity env k8s with
        id := ⟨freshUID st.counter, (newPodEntity env k8s).id.xid⟩ }
      (storePodUpdateEntity env k8s (k8s.nspace ++ ":" ++ k8s.name)
        (freshUID st.counter)))
      (storePodUpdateEntity env k8s (k8s.nspace ++ ":" ++ k8s.name)
        (freshUID st.counter))).isPod = true :=
    mergePod_isPod _ _ hm1p
  have hget2 : GetUID (k8s.nspace ++ ":" ++ k8s.name) IsPod
      (StorePod env k8s st).2 = freshUID st.counter := by
    rw [hrun1]
    unfold GetUID
    rw [if_pos rfl]
    dsimp only
    exact findPodUID_cons_pos _ _ _ ⟨hm1x, hm1p⟩
  have hrun2 := storePod_update_run env k8s (StorePod env k8s st).2
    (freshUID st.counter) hdel hget2 hfresh (hok _ _)
  have hfind0 : findPodUID st.pods (k8s.nspace ++ ":" ++ k8s.name) = "" := by
    unfold GetUID at habs
    rw [if_pos rfl] at habs
    exact habs
  refine ⟨by rw [hrun1], by rw [hrun2], hget2, ?_, ?_, ?_⟩
  · rw [hrun2, hrun1]
    dsimp only
    simp only [updatePods, if_true]
    unfold GetUID
    rw [if_pos rfl]
    dsimp only
    exact findPodUID_cons_pos _ _ _ ⟨hm2x, hm2p⟩
  · rw [hrun2, hrun1]
    dsimp only
    simp only [updatePods, if_true]
    unfold podEntityCount
    dsimp only
    rw [List.filter_cons]
    simp only [hm2x, hm2p, and_self, decide_True, if_true]
    rw [findPodUID_empty_filter st.pods (k8s.nspace ++ ":" ++ k8s.name) hfind0 hkeys]
    simp
  · rw [hrun2, hrun1]

/-- The fresh pod object used by the C1 witness. -/
def k8sFresh : K8sPod :=
  { name := "p", nspace := "ns", nodeName := "n", creationTimestamp := "t"
    deletionTimestamp := none, labels := [], ownerReferences := none
    volumes := [] }

/-- The empty store used by the C1 witness. -/
def stEmpty : Store :=
  ⟨[], 0, [], []⟩

/-- Witness for C1: two runs on an initially empty store. -/
theorem storePod_idempotent_witness :
    (StorePod envResolved k8sFresh stEmpty).1 = Except.ok () ∧
    (StorePod envResolved k8sFresh (StorePod envResolved k8sFresh stEmpty).2).1 =
      Except.ok () ∧
    GetUID (k8sFresh.nspace ++ ":" ++ k8sFresh.name) IsPod
      (StorePod envResolved k8sFresh stEmpty).2 = freshUID stEmpty.counter ∧
    GetUID (k8sFresh.nspace ++ ":" ++ k8sFresh.name) IsPod
      (StorePod envResolved k8sFresh
        (StorePod envResolved k8sFresh stEmpty).2).2 = freshUID stEmpty.counter ∧
    podEntityCount (k8sFresh.nspace ++ ":" ++ k8sFresh.name)
      (StorePod envResolved k8sFresh
        (StorePod envResolved k8sFresh stEmpty).2).2 = 1 ∧
    (StorePod envResolved k8sFresh
      (StorePod envResolved k8sFresh stEmpty).2).2.counter =
      (StorePod envResolved k8sFresh stEmpty).2.counter :=
  storePod_idempotent envResolved k8sFresh stEmpty rfl (by decide)
    (by simp [stEmpty]) (fun _ _ => rfl)
